import Mathlib

/-!
Shallow embedding of the experiment CLI in src/experiments/cli.py.

The file models the two functions of that module that carry the control
flow, main and trainer, together with the helper save_config_to_yaml and
the few-shot seed loop.  External collaborators (the dataset loader, the
pretrained-model loader, the few-shot sampler, the runners) are supplied
through an environment of oracle functions; every call the code makes to
a collaborator is recorded in an event trace so that ordering properties
(what happened before an exception was raised) can be stated.  Python
exceptions become constructors of an error type; scalar metrics are
modelled as rationals.
-/

namespace OpenPromptCLI

/-- Abstract handle for one dataset split, produced by the external
dataset loader or the few-shot sampler. -/
abbrev Dataset := Nat

/-- Abstract handle for the label-processor descriptor returned by the
dataset loader and passed through to the trainer. -/
abbrev Proc := Nat

/-- Python truthiness of an optional string CLI flag: absent (None) and
the empty string are falsy, every other string is truthy. -/
def pyTruthy : Option String → Bool
  | none => false
  | some s => !(s == "")

/-- The parsed CLI arguments that main receives from get_config. -/
structure Args where
  resume : Option String
  test : Option String
deriving DecidableEq

/-- The config.few_shot section; only few_shot_sampling is read here. -/
structure FewShotCfg where
  few_shot_sampling : Option String
deriving DecidableEq

/-- The config.sampling_from_train section read by the few-shot branch. -/
structure SamplingFromTrainCfg where
  seed : List Int
  num_examples_per_label : Nat
  also_sample_dev : Bool
  num_examples_per_label_dev : Nat
deriving DecidableEq

/-- The config.classification section; the trainer reads auto_t, auto_v. -/
structure ClassificationCfg where
  auto_t : Bool
  auto_v : Bool
deriving DecidableEq

/-- The config.logging section; main overwrites path on resume or test. -/
structure LoggingCfg where
  path : String
deriving DecidableEq

/-- The resolved configuration object, restricted to the fields that the
control flow of cli.py reads or writes. -/
structure Config where
  learning_setting : String
  task : String
  few_shot : FewShotCfg
  sampling_from_train : SamplingFromTrainCfg
  classification : ClassificationCfg
  logging : LoggingCfg
deriving DecidableEq

/-- Replace the logging path of a configuration, leaving every other
field unchanged: the effect of the assignment config.logging.path = p. -/
def setLoggingPath (c : Config) (p : String) : Config :=
  ⟨c.learning_setting, c.task, c.few_shot, c.sampling_from_train,
   c.classification, ⟨p⟩⟩

/-- A call into a runner object: its test or run method, with the
checkpoint argument passed (none when no ckpt keyword is given). -/
inductive RunnerOp where
  | test (ckpt : Option String)
  | run (ckpt : Option String)
deriving DecidableEq

/-- One observable action of the code: a call to a collaborator or a
side effect on the experiment directory. -/
inductive Event where
  | initLogger
  | saveConfig
  | loadDataset (testMode : Bool)
  | samplerCall (seed : Int)
  | trainerCall (path : String)
  | setSeed
  | loadPlm
  | loadVerbalizer
  | loadTemplate
  | buildDataloader (split : String)
  | runnerCall (path : String) (op : RunnerOp)
deriving DecidableEq

/-- The exceptions that can terminate an invocation of main or trainer:
the three explicit raise statements of cli.py, the unbound-local errors
Python raises when a never-assigned variable is referenced, and the
division by zero of the seed-averaging step. -/
inductive Err where
  | resumeTestConflict
  | samplingUnset
  | taskNotImplemented (task : String)
  | unboundLocal (name : String)
  | zeroDivision
deriving DecidableEq

/-- Whether an error corresponds to one of the explicit raise statements
of cli.py, as opposed to a runtime failure (unbound local variable,
division by zero) that no raise statement produces. -/
def isExplicitRaise : Err → Bool
  | Err.resumeTestConflict => true
  | Err.samplingUnset => true
  | Err.taskNotImplemented _ => true
  | Err.unboundLocal _ => false
  | Err.zeroDivision => false

/-- The outcome of an invocation: the scalar metric it returns, or the
exception that terminated it. -/
inductive Outcome where
  | ok (metric : ℚ)
  | error (e : Err)
deriving DecidableEq

/-- The environment of external collaborators.  expDir is the directory
config_experiment_dir computes for a fresh run; datasets is load_dataset,
keyed by its test argument; sample is the FewShotSampler call, keyed by
the train set, the valid set and the seed; metric gives the scalar that
a runner call at a given experiment path returns. -/
structure Env where
  expDir : String
  datasets : Bool → Option Dataset × Option Dataset × Option Dataset × Proc
  sample : Option Dataset → Option Dataset → Int → Option Dataset × Option Dataset
  metric : String → RunnerOp → ℚ

/-- The final if/elif chain of trainer: pick the runner method by flag
priority (zero, then test, then resume, then a fresh run) and return the
metric the runner produces. -/
def runnerDispatch (env : Env) (EXP_PATH : String) (resume test : Option String)
    (zero : Bool) (acc : List Event) : List Event × Outcome :=
  let op : RunnerOp :=
    if zero then RunnerOp.test none
    else if pyTruthy test then RunnerOp.test (some "best")
    else if pyTruthy resume then RunnerOp.run (some "last")
    else RunnerOp.run none
  (acc ++ [Event.runnerCall EXP_PATH op], Outcome.ok (env.metric EXP_PATH op))

/-- The second half of trainer, from the dataloader-building block on:
build a dataloader for each split whose dataset is present, then select
the runner.  The plain ClassificationRunner and the GenerationRunner
reference the local variables train_dataloader, valid_dataloader and
test_dataloader, in that order, so the first one whose dataset was absent
raises an unbound-local error; the LMBFF runner receives the raw datasets
instead and never touches those locals. -/
def trainerAfterSetup (env : Env) (cfg : Config) (EXP_PATH : String)
    (train_dataset valid_dataset test_dataset : Option Dataset)
    (resume test : Option String) (zero : Bool) (acc : List Event) :
    List Event × Outcome :=
  let acc2 := acc
    ++ (if train_dataset.isSome then [Event.buildDataloader "train"] else [])
    ++ (if valid_dataset.isSome then [Event.buildDataloader "dev"] else [])
    ++ (if test_dataset.isSome then [Event.buildDataloader "test"] else [])
  if cfg.task = "classification" ∧ (cfg.classification.auto_t = true ∨ cfg.classification.auto_v = true) then
    runnerDispatch env EXP_PATH resume test zero acc2
  else
    if train_dataset.isNone then (acc2, Outcome.error (Err.unboundLocal "train_dataloader"))
    else if valid_dataset.isNone then (acc2, Outcome.error (Err.unboundLocal "valid_dataloader"))
    else if test_dataset.isNone then (acc2, Outcome.error (Err.unboundLocal "test_dataloader"))
    else runnerDispatch env EXP_PATH resume test zero acc2

/-- Model of trainer in src/experiments/cli.py: seed the random state,
load the pretrained model, branch on config.task to build the template
and verbalizer (loading a second pretrained model when automatic template
search is on, and raising NotImplementedError for any other task), then
build dataloaders, select a runner and dispatch on the mode flags. -/
def trainerModel (env : Env) (cfg : Config) (EXP_PATH : String) (_P : Proc)
    (train_dataset valid_dataset test_dataset : Option Dataset)
    (resume test : Option String) (zero : Bool) : List Event × Outcome :=
  let pre := [Event.trainerCall EXP_PATH, Event.setSeed, Event.loadPlm]
  if cfg.task = "classification" then
    let setup :=
      if cfg.classification.auto_t then
        [Event.loadVerbalizer, Event.loadPlm, Event.loadTemplate]
      else
        [Event.loadVerbalizer, Event.loadTemplate]
    trainerAfterSetup env cfg EXP_PATH train_dataset valid_dataset test_dataset
      resume test zero (pre ++ setup)
  else if cfg.task = "generation" then
    trainerAfterSetup env cfg EXP_PATH train_dataset valid_dataset test_dataset
      resume test zero (pre ++ [Event.loadTemplate])
  else
    (pre, Outcome.error (Err.taskNotImplemented cfg.task))

/-- One iteration of the few-shot seed loop of main.  Unless the test
flag is truthy, a FewShotSampler is built and applied to the full train
and valid sets with the current seed and the trainer runs on the sampled
sets under the seed-scoped sub-path; in test mode the trainer runs on the
test set alone, with no resume flag passed. -/
def seedStep (env : Env) (cfg : Config) (args : Args) (EXP_PATH : String) (P : Proc)
    (train_dataset valid_dataset test_dataset : Option Dataset) (seed : Int) :
    List Event × Outcome :=
  if !(pyTruthy args.test) then
    let sampled := env.sample train_dataset valid_dataset seed
    let r := trainerModel env cfg (EXP_PATH ++ "/seed-" ++ toString seed) P
      sampled.1 sampled.2 test_dataset args.resume args.test false
    (Event.samplerCall seed :: r.1, r.2)
  else
    trainerModel env cfg (EXP_PATH ++ "/seed-" ++ toString seed) P
      none none test_dataset none args.test false

/-- The accumulation loop over seeds in the few-shot branch of main:
res starts at 0 and each iteration adds the metric its trainer call
returned; an exception in any iteration aborts the loop. -/
def fewShotLoop (f : Int → List Event × Outcome) :
    List Int → ℚ → List Event × Outcome
  | [], acc => ([], Outcome.ok acc)
  | s :: rest, acc =>
    match f s with
    | (tr, Outcome.error e) => (tr, Outcome.error e)
    | (tr, Outcome.ok v) =>
      match fewShotLoop f rest (acc + v) with
      | (tr2, out) => (tr ++ tr2, out)

/-- Model of main in src/experiments/cli.py from the point where the
configuration and CLI arguments are resolved.  Returns the configuration
object as it stands when the process ends, the trace of collaborator
calls, and the outcome: the metric printed at the end, or the exception
that terminated the run.  Unsupported learning settings leave res
unassigned, so the final print raises an unbound-local error on res. -/
def mainModel (env : Env) (cfg : Config) (args : Args) :
    Config × List Event × Outcome :=
  if pyTruthy args.resume && pyTruthy args.test then
    (cfg, [], Outcome.error Err.resumeTestConflict)
  else
    let fresh := !(pyTruthy args.resume || pyTruthy args.test)
    let EXP_PATH :=
      if fresh then env.expDir
      else if pyTruthy args.resume then args.resume.getD "" else args.test.getD ""
    let cfg1 := if fresh then cfg else setLoggingPath cfg EXP_PATH
    let testMode := args.test.isSome || (cfg1.learning_setting == "zero_shot")
    let pre := (if fresh then [Event.initLogger, Event.saveConfig] else [])
      ++ [Event.loadDataset testMode]
    let ds := env.datasets testMode
    let train_dataset := ds.1
    let valid_dataset := ds.2.1
    let test_dataset := ds.2.2.1
    let P := ds.2.2.2
    if cfg1.learning_setting = "full" then
      let r := trainerModel env cfg1 EXP_PATH P train_dataset valid_dataset
        test_dataset args.resume args.test false
      (cfg1, pre ++ r.1, r.2)
    else if cfg1.learning_setting = "few_shot" then
      if cfg1.few_shot.few_shot_sampling.isNone then
        (cfg1, pre, Outcome.error Err.samplingUnset)
      else
        let seeds := cfg1.sampling_from_train.seed
        let lr := fewShotLoop
          (seedStep env cfg1 args EXP_PATH P train_dataset valid_dataset test_dataset)
          seeds 0
        match lr.2 with
        | Outcome.error e => (cfg1, pre ++ lr.1, Outcome.error e)
        | Outcome.ok total =>
          if seeds.length = 0 then (cfg1, pre ++ lr.1, Outcome.error Err.zeroDivision)
          else (cfg1, pre ++ lr.1, Outcome.ok (total / (seeds.length : ℚ)))
    else if cfg1.learning_setting = "zero_shot" then
      let r := trainerModel env cfg1 EXP_PATH P train_dataset valid_dataset
        test_dataset none none true
      (cfg1, pre ++ r.1, r.2)
    else
      (cfg1, pre, Outcome.error (Err.unboundLocal "res"))

/-- Whether an event is an invocation of the trainer. -/
def isTrainerCall : Event → Bool
  | Event.trainerCall _ => true
  | _ => false

/-- Number of trainer invocations recorded in a trace. -/
def trainerCalls (tr : List Event) : Nat := (tr.filter isTrainerCall).length

/-- Concrete environment used to instantiate the theorems: three dataset
splits are always available, the sampler returns fresh handles, and the
runner metric depends on the experiment path, giving the per-seed values
7/10, 3/4 and 4/5 of the worked example in the specification. -/
def envW : Env :=
  ⟨"exp",
   fun _ => (some 1, some 2, some 3, 0),
   fun _ _ s => (some (100 + s.toNat), some (200 + s.toNat)),
   fun p _ =>
     if p == "exp/seed-1" then (7 : ℚ)/10
     else if p == "exp/seed-2" then 3/4
     else if p == "exp/seed-3" then 4/5
     else 0⟩

/-- Concrete few-shot classification configuration with seeds 1, 2, 3. -/
def cfgW : Config :=
  ⟨"few_shot", "classification", ⟨some "random"⟩, ⟨[1, 2, 3], 16, true, 16⟩,
   ⟨false, false⟩, ⟨"orig"⟩⟩

/-- The per-seed metrics envW produces under the seed-scoped paths. -/
def mW : Int → ℚ := fun s => if s = 1 then 7/10 else if s = 2 then 3/4 else 4/5

/-- CLI arguments of a fresh run: neither resume nor test supplied. -/
def argsFresh : Args := ⟨none, none⟩

/-- CLI arguments supplying both resume and test paths. -/
def argsBoth : Args := ⟨some "a", some "b"⟩

/-- CLI arguments of a resume invocation. -/
def argsResume : Args := ⟨some "ckpt", none⟩

/-- Configuration whose task is neither classification nor generation. -/
def cfgTaskBad : Config :=
  ⟨"full", "regression", ⟨some "random"⟩, ⟨[1], 16, true, 16⟩,
   ⟨false, false⟩, ⟨"orig"⟩⟩

/-- Concrete full-setting generation configuration. -/
def cfgGen : Config :=
  ⟨"full", "generation", ⟨some "random"⟩, ⟨[1], 16, true, 16⟩,
   ⟨false, false⟩, ⟨"orig"⟩⟩

/-- Configuration with an unsupported learning setting. -/
def cfgUnsupported : Config :=
  ⟨"supervised", "classification", ⟨some "random"⟩, ⟨[1], 16, true, 16⟩,
   ⟨false, false⟩, ⟨"orig"⟩⟩

/-- Few-shot configuration with an empty seed list. -/
def cfgEmptySeeds : Config :=
  ⟨"few_shot", "classification", ⟨some "random"⟩, ⟨[], 16, true, 16⟩,
   ⟨false, false⟩, ⟨"orig"⟩⟩

/-- Few-shot configuration with no sampling strategy configured. -/
def cfgNoSampling : Config :=
  ⟨"few_shot", "classification", ⟨none⟩, ⟨[1, 2], 16, true, 16⟩,
   ⟨false, false⟩, ⟨"orig"⟩⟩

/-- Trainer-call counting distributes over trace concatenation. -/
theorem trainerCalls_append (a b : List Event) :
    trainerCalls (a ++ b) = trainerCalls a + trainerCalls b := by
  simp [trainerCalls, List.filter_append]

/-- setLoggingPath changes no field except logging. -/
@[simp] theorem setLoggingPath_learning_setting (c : Config) (p : String) :
    (setLoggingPath c p).learning_setting = c.learning_setting := rfl

@[simp] theorem setLoggingPath_task (c : Config) (p : String) :
    (setLoggingPath c p).task = c.task := rfl

@[simp] theorem setLoggingPath_few_shot (c : Config) (p : String) :
    (setLoggingPath c p).few_shot = c.few_shot := rfl

@[simp] theorem setLoggingPath_sampling (c : Config) (p : String) :
    (setLoggingPath c p).sampling_from_train = c.sampling_from_train := rfl

@[simp] theorem setLoggingPath_classification (c : Config) (p : String) :
    (setLoggingPath c p).classification = c.classification := rfl

/-- Runner selection and dispatch add no trainer call to the trace. -/
theorem runnerDispatch_trainerCalls (env : Env) (EXP_PATH : String)
    (resume test : Option String) (zero : Bool) (acc : List Event) :
    trainerCalls (runnerDispatch env EXP_PATH resume test zero acc).1 = trainerCalls acc := by
  simp [runnerDispatch, trainerCalls_append, trainerCalls, List.filter, isTrainerCall]

/-- The dataloader and runner phase of the trainer adds no trainer call. -/
theorem trainerAfterSetup_trainerCalls (env : Env) (cfg : Config) (EXP_PATH : String)
    (train valid testd : Option Dataset) (resume test : Option String)
    (zero : Bool) (acc : List Event) :
    trainerCalls (trainerAfterSetup env cfg EXP_PATH train valid testd resume test zero acc).1
      = trainerCalls acc := by
  simp only [trainerAfterSetup]
  split_ifs <;>
    simp only [runnerDispatch_trainerCalls, trainerCalls_append] <;>
    simp [trainerCalls, List.filter, isTrainerCall]

/-- Every invocation of the trainer records exactly one trainer call in
its trace, whichever branch it takes. -/
theorem trainerModel_trainerCalls (env : Env) (cfg : Config) (EXP_PATH : String)
    (P : Proc) (train valid testd : Option Dataset) (resume test : Option String)
    (zero : Bool) :
    trainerCalls (trainerModel env cfg EXP_PATH P train valid testd resume test zero).1 = 1 := by
  simp only [trainerModel]
  split_ifs <;>
    simp only [trainerAfterSetup_trainerCalls] <;>
    simp [trainerCalls, List.filter, isTrainerCall]

/-- Each iteration of the few-shot seed loop invokes the trainer exactly once. -/
theorem seedStep_trainerCalls (env : Env) (cfg : Config) (args : Args)
    (EXP_PATH : String) (P : Proc) (train valid testd : Option Dataset) (s : Int) :
    trainerCalls (seedStep env cfg args EXP_PATH P train valid testd s).1 = 1 := by
  unfold seedStep
  split_ifs with h
  · have := trainerModel_trainerCalls env cfg (EXP_PATH ++ "/seed-" ++ toString s) P
      (env.sample train valid s).1 (env.sample train valid s).2 testd args.resume args.test false
    simpa [trainerCalls, List.filter, isTrainerCall] using this
  · exact trainerModel_trainerCalls env cfg (EXP_PATH ++ "/seed-" ++ toString s) P
      none none testd none args.test false

/-- If every iteration returns a metric, the seed loop returns the running
total: the accumulator plus the sum of the per-seed metrics. -/
theorem fewShotLoop_ok_sum (f : Int → List Event × Outcome) (m : Int → ℚ) :
    ∀ (l : List Int) (acc : ℚ), (∀ s ∈ l, (f s).2 = Outcome.ok (m s)) →
      (fewShotLoop f l acc).2 = Outcome.ok (acc + (l.map m).sum) := by
  intro l
  induction l with
  | nil => intro acc _; simp [fewShotLoop]
  | cons s rest ih =>
    intro acc h
    have hs : (f s).2 = Outcome.ok (m s) := h s (by simp)
    have hr : ∀ x ∈ rest, (f x).2 = Outcome.ok (m x) := fun x hx => h x (by simp [hx])
    rcases hfs : f s with ⟨tr, out⟩
    have hout : out = Outcome.ok (m s) := by rw [hfs] at hs; exact hs
    subst hout
    have ih2 := ih (acc + m s) hr
    rcases hrec : fewShotLoop f rest (acc + m s) with ⟨tr2, out2⟩
    simp only [fewShotLoop, hfs, hrec]
    rw [hrec] at ih2
    simpa [add_assoc] using ih2

/-- If every iteration returns a metric and makes exactly one trainer
call, the seed loop makes one trainer call per seed. -/
theorem fewShotLoop_calls (f : Int → List Event × Outcome) (m : Int → ℚ)
    (hone : ∀ s, trainerCalls (f s).1 = 1) :
    ∀ (l : List Int) (acc : ℚ), (∀ s ∈ l, (f s).2 = Outcome.ok (m s)) →
      trainerCalls (fewShotLoop f l acc).1 = l.length := by
  intro l
  induction l with
  | nil => intro acc _; simp [fewShotLoop, trainerCalls]
  | cons s rest ih =>
    intro acc h
    have hs : (f s).2 = Outcome.ok (m s) := h s (by simp)
    have hr : ∀ x ∈ rest, (f x).2 = Outcome.ok (m x) := fun x hx => h x (by simp [hx])
    rcases hfs : f s with ⟨tr, out⟩
    have hout : out = Outcome.ok (m s) := by rw [hfs] at hs; exact hs
    subst hout
    have h1 : trainerCalls tr = 1 := by have := hone s; rw [hfs] at this; exact this
    have ih2 := ih (acc + m s) hr
    rcases hrec : fewShotLoop f rest (acc + m s) with ⟨tr2, out2⟩
    rw [hrec] at ih2
    simp only [fewShotLoop, hfs, hrec]
    simp at ih2
    rw [List.length_cons]
    simp [trainerCalls_append, h1, ih2]
    omega

/-- The trainer never writes a config snapshot: runner dispatch. -/
theorem saveConfig_not_in_runnerDispatch (env : Env) (EXP_PATH : String)
    (resume test : Option String) (zero : Bool) (acc : List Event)
    (h : Event.saveConfig ∉ acc) :
    Event.saveConfig ∉ (runnerDispatch env EXP_PATH resume test zero acc).1 := by
  simp [runnerDispatch, h]

/-- The trainer never writes a config snapshot: dataloader phase. -/
theorem saveConfig_not_in_trainerAfterSetup (env : Env) (cfg : Config)
    (EXP_PATH : String) (train valid testd : Option Dataset)
    (resume test : Option String) (zero : Bool) (acc : List Event)
    (h : Event.saveConfig ∉ acc) :
    Event.saveConfig ∉
      (trainerAfterSetup env cfg EXP_PATH train valid testd resume test zero acc).1 := by
  simp only [trainerAfterSetup]
  split_ifs <;>
    first
      | exact saveConfig_not_in_runnerDispatch _ _ _ _ _ _ (by simp [h])
      | simp [h]

/-- The trainer never writes a config snapshot. -/
theorem saveConfig_not_in_trainerModel (env : Env) (cfg : Config) (EXP_PATH : String)
    (P : Proc) (train valid testd : Option Dataset) (resume test : Option String)
    (zero : Bool) :
    Event.saveConfig ∉ (trainerModel env cfg EXP_PATH P train valid testd resume test zero).1 := by
  simp only [trainerModel]
  split_ifs
  · exact saveConfig_not_in_trainerAfterSetup _ _ _ _ _ _ _ _ _ _ (by simp)
  · exact saveConfig_not_in_trainerAfterSetup _ _ _ _ _ _ _ _ _ _ (by simp)
  · exact saveConfig_not_in_trainerAfterSetup _ _ _ _ _ _ _ _ _ _ (by simp)
  · simp

/-- A few-shot seed iteration never writes a config snapshot. -/
theorem saveConfig_not_in_seedStep (env : Env) (cfg : Config) (args : Args)
    (EXP_PATH : String) (P : Proc) (train valid testd : Option Dataset) (s : Int) :
    Event.saveConfig ∉ (seedStep env cfg args EXP_PATH P train valid testd s).1 := by
  simp only [seedStep]
  split_ifs
  · have := saveConfig_not_in_trainerModel env cfg (EXP_PATH ++ "/seed-" ++ toString s) P
      (env.sample train valid s).1 (env.sample train valid s).2 testd args.resume args.test false
    simpa using this
  · exact saveConfig_not_in_trainerModel env cfg (EXP_PATH ++ "/seed-" ++ toString s) P
      none none testd none args.test false

/-- The few-shot seed loop never writes a config snapshot. -/
theorem saveConfig_not_in_fewShotLoop (f : Int → List Event × Outcome)
    (hf : ∀ s, Event.saveConfig ∉ (f s).1) :
    ∀ (l : List Int) (acc : ℚ), Event.saveConfig ∉ (fewShotLoop f l acc).1 := by
  intro l
  induction l with
  | nil => intro acc; simp [fewShotLoop]
  | cons s rest ih =>
    intro acc
    rcases hfs : f s with ⟨tr, out⟩
    have htr : Event.saveConfig ∉ tr := by have := hf s; rw [hfs] at this; exact this
    cases out with
    | error e => simp only [fewShotLoop, hfs]; exact htr
    | ok v =>
      rcases hrec : fewShotLoop f rest (acc + v) with ⟨tr2, out2⟩
      have htr2 : Event.saveConfig ∉ tr2 := by
        have := ih (acc + v); rw [hrec] at this; exact this
      simp only [fewShotLoop, hfs, hrec]
      simp [htr, htr2]

/-- When the task is supported and the needed datasets are present, the
trainer reaches runner dispatch: its result is a runner dispatch over
some accumulated trace. -/
theorem trainerModel_reaches_runner (env : Env) (cfg : Config) (EXP_PATH : String)
    (P : Proc) (train valid testd : Option Dataset) (resume test : Option String)
    (zero : Bool)
    (hreach : (cfg.task = "classification"
        ∧ (cfg.classification.auto_t = true ∨ cfg.classification.auto_v = true))
      ∨ ((cfg.task = "classification" ∨ cfg.task = "generation")
        ∧ train.isSome = true ∧ valid.isSome = true ∧ testd.isSome = true)) :
    ∃ acc2, trainerModel env cfg EXP_PATH P train valid testd resume test zero
      = runnerDispatch env EXP_PATH resume test zero acc2 := by
  have hstep : ∀ acc : List Event,
      ∃ acc2, trainerAfterSetup env cfg EXP_PATH train valid testd resume test zero acc
        = runnerDispatch env EXP_PATH resume test zero acc2 := by
    intro acc
    simp only [trainerAfterSetup]
    by_cases hc : cfg.task = "classification"
      ∧ (cfg.classification.auto_t = true ∨ cfg.classification.auto_v = true)
    · rw [if_pos hc]
      exact ⟨_, rfl⟩
    · rw [if_neg hc]
      rcases hreach with h | h
      · exact absurd h hc
      · obtain ⟨-, ht1, ht2, ht3⟩ := h
        have hn1 : train.isNone = false := by cases train <;> simp_all
        have hn2 : valid.isNone = false := by cases valid <;> simp_all
        have hn3 : testd.isNone = false := by cases testd <;> simp_all
        simp only [hn1, hn2, hn3]
        simp only [Bool.false_eq_true, if_false]
        exact ⟨_, rfl⟩
  have htask : cfg.task = "classification" ∨ cfg.task = "generation" := by
    rcases hreach with h | h
    · exact Or.inl h.1
    · exact h.1
  simp only [trainerModel]
  rcases htask with h | h
  · rw [if_pos h]
    exact hstep _
  · by_cases hc : cfg.task = "classification"
    · rw [if_pos hc]
      exact hstep _
    · rw [if_neg hc, if_pos h]
      exact hstep _

/-- Runner dispatch returns the oracle metric of the flag-selected
operation and records the corresponding runner call. -/
theorem runnerDispatch_spec (env : Env) (EXP_PATH : String)
    (resume test : Option String) (zero : Bool) (acc : List Event) :
    (runnerDispatch env EXP_PATH resume test zero acc).2 =
      Outcome.ok (env.metric EXP_PATH (
        if zero then RunnerOp.test none
        else if pyTruthy test then RunnerOp.test (some "best")
        else if pyTruthy resume then RunnerOp.run (some "last")
        else RunnerOp.run none)) ∧
    Event.runnerCall EXP_PATH (
        if zero then RunnerOp.test none
        else if pyTruthy test then RunnerOp.test (some "best")
        else if pyTruthy resume then RunnerOp.run (some "last")
        else RunnerOp.run none)
      ∈ (runnerDispatch env EXP_PATH resume test zero acc).1 := by
  constructor
  · rfl
  · simp [runnerDispatch]

/-- C4: when config.task is neither classification nor generation, the
trainer fails with the not-implemented error for that task before any
dataloader is built for any split. -/
theorem task_not_implemented_before_dataloaders (env : Env) (cfg : Config)
    (EXP_PATH : String) (P : Proc) (train valid testd : Option Dataset)
    (resume test : Option String) (zero : Bool)
    (h1 : cfg.task ≠ "classification") (h2 : cfg.task ≠ "generation") :
    (trainerModel env cfg EXP_PATH P train valid testd resume test zero).2
      = Outcome.error (Err.taskNotImplemented cfg.task) ∧
    ∀ s, Event.buildDataloader s ∉
      (trainerModel env cfg EXP_PATH P train valid testd resume test zero).1 := by
  simp [trainerModel, h1, h2]

/-- Witness for C4 at a configuration whose task is regression. -/
theorem task_not_implemented_before_dataloaders_witness :
    (trainerModel envW cfgTaskBad "exp" 0 (some 1) (some 2) (some 3) none none false).2
      = Outcome.error (Err.taskNotImplemented "regression") ∧
    ∀ s, Event.buildDataloader s ∉
      (trainerModel envW cfgTaskBad "exp" 0 (some 1) (some 2) (some 3) none none false).1 :=
  task_not_implemented_before_dataloaders envW cfgTaskBad "exp" 0 (some 1) (some 2)
    (some 3) none none false (by decide) (by decide)

/-- C6: a trainer invocation that reaches runner selection chooses the
execution mode by flag priority: zero-shot calls test with no checkpoint,
else a truthy test flag calls test against the best checkpoint, else a
truthy resume flag calls run from the last checkpoint, else a fresh run;
the trainer returns the metric that runner call produces. -/
theorem runner_flag_priority (env : Env) (cfg : Config) (EXP_PATH : String)
    (P : Proc) (train valid testd : Option Dataset) (resume test : Option String)
    (zero : Bool)
    (hreach : (cfg.task = "classification"
        ∧ (cfg.classification.auto_t = true ∨ cfg.classification.auto_v = true))
      ∨ ((cfg.task = "classification" ∨ cfg.task = "generation")
        ∧ train.isSome = true ∧ valid.isSome = true ∧ testd.isSome = true)) :
    (trainerModel env cfg EXP_PATH P train valid testd resume test zero).2 =
      Outcome.ok (env.metric EXP_PATH (
        if zero then RunnerOp.test none
        else if pyTruthy test then RunnerOp.test (some "best")
        else if pyTruthy resume then RunnerOp.run (some "last")
        else RunnerOp.run none)) ∧
    Event.runnerCall EXP_PATH (
        if zero then RunnerOp.test none
        else if pyTruthy test then RunnerOp.test (some "best")
        else if pyTruthy resume then RunnerOp.run (some "last")
        else RunnerOp.run none)
      ∈ (trainerModel env cfg EXP_PATH P train valid testd resume test zero).1 := by
  obtain ⟨acc2, heq⟩ := trainerModel_reaches_runner env cfg EXP_PATH P train valid
    testd resume test zero hreach
  rw [heq]
  exact runnerDispatch_spec env EXP_PATH resume test zero acc2

/-- Witness for C6: generation task, all splits present, test flag truthy
and resume flag truthy; the test flag wins and the best checkpoint is
evaluated. -/
theorem runner_flag_priority_witness :
    (trainerModel envW cfgGen "exp" 0 (some 1) (some 2) (some 3)
        (some "q") (some "p") false).2 =
      Outcome.ok (envW.metric "exp" (RunnerOp.test (some "best"))) ∧
    Event.runnerCall "exp" (RunnerOp.test (some "best"))
      ∈ (trainerModel envW cfgGen "exp" 0 (some 1) (some 2) (some 3)
          (some "q") (some "p") false).1 :=
  runner_flag_priority envW cfgGen "exp" 0 (some 1) (some 2) (some 3)
    (some "q") (some "p") false (Or.inr (by decide))

/-- C10: when the train dataset is absent and the selected runner is the
plain classification runner or the generation runner, runner construction
references the never-assigned local train_dataloader and the trainer
fails with an unbound-local error, with no runner call executed. -/
theorem missing_train_dataset_unbound (env : Env) (cfg : Config) (EXP_PATH : String)
    (P : Proc) (valid testd : Option Dataset) (resume test : Option String)
    (zero : Bool)
    (hplain : (cfg.task = "classification" ∧ cfg.classification.auto_t = false
        ∧ cfg.classification.auto_v = false)
      ∨ cfg.task = "generation") :
    (trainerModel env cfg EXP_PATH P none valid testd resume test zero).2
      = Outcome.error (Err.unboundLocal "train_dataloader") ∧
    ∀ p op, Event.runnerCall p op ∉
      (trainerModel env cfg EXP_PATH P none valid testd resume test zero).1 := by
  rcases hplain with ⟨hcls, hat, hav⟩ | hgen
  · cases valid <;> cases testd <;>
      simp [trainerModel, trainerAfterSetup, hcls, hat, hav]
  · have hnc : cfg.task ≠ "classification" := by rw [hgen]; decide
    cases valid <;> cases testd <;>
      simp [trainerModel, trainerAfterSetup, hgen, hnc]

/-- Witness for C10: plain classification, no train dataset. -/
theorem missing_train_dataset_unbound_witness :
    (trainerModel envW cfgW "exp" 0 none (some 2) (some 3) none none false).2
      = Outcome.error (Err.unboundLocal "train_dataloader") ∧
    ∀ p op, Event.runnerCall p op ∉
      (trainerModel envW cfgW "exp" 0 none (some 2) (some 3) none none false).1 :=
  missing_train_dataset_unbound envW cfgW "exp" 0 (some 2) (some 3) none none false
    (Or.inl (by decide))

/-- C2: when both the resume and the test flag are truthy, main raises
the conflict exception and the dataset loader is never called. -/
theorem resume_test_conflict_before_load (env : Env) (cfg : Config) (args : Args)
    (hr : pyTruthy args.resume = true) (ht : pyTruthy args.test = true) :
    (mainModel env cfg args).2.2 = Outcome.error Err.resumeTestConflict ∧
    ∀ b, Event.loadDataset b ∉ (mainModel env cfg args).2.1 := by
  simp [mainModel, hr, ht]

/-- Witness for C2 with both flags supplied. -/
theorem resume_test_conflict_before_load_witness :
    (mainModel envW cfgW argsBoth).2.2 = Outcome.error Err.resumeTestConflict ∧
    ∀ b, Event.loadDataset b ∉ (mainModel envW cfgW argsBoth).2.1 :=
  resume_test_conflict_before_load envW cfgW argsBoth (by decide) (by decide)

/-- C5: in the few-shot setting with no sampling strategy configured,
main raises the missing-sampling error before any sampler is constructed
or invoked, and before any trainer call. -/
theorem few_shot_sampling_unset_fails (env : Env) (cfg : Config) (args : Args)
    (hset : cfg.learning_setting = "few_shot")
    (hsamp : cfg.few_shot.few_shot_sampling = none)
    (hnc : (pyTruthy args.resume && pyTruthy args.test) = false) :
    (mainModel env cfg args).2.2 = Outcome.error Err.samplingUnset ∧
    (∀ s, Event.samplerCall s ∉ (mainModel env cfg args).2.1) ∧
    (∀ p, Event.trainerCall p ∉ (mainModel env cfg args).2.1) := by
  cases hr : pyTruthy args.resume <;> cases ht : pyTruthy args.test
  · simp [mainModel, hr, ht, hset, hsamp]
  · simp [mainModel, hr, ht, hset, hsamp]
  · simp [mainModel, hr, ht, hset, hsamp]
  · rw [hr, ht] at hnc; simp at hnc

/-- Witness for C5 on a fresh run. -/
theorem few_shot_sampling_unset_fails_witness :
    (mainModel envW cfgNoSampling argsFresh).2.2 = Outcome.error Err.samplingUnset ∧
    (∀ s, Event.samplerCall s ∉ (mainModel envW cfgNoSampling argsFresh).2.1) ∧
    (∀ p, Event.trainerCall p ∉ (mainModel envW cfgNoSampling argsFresh).2.1) :=
  few_shot_sampling_unset_fails envW cfgNoSampling argsFresh rfl rfl (by decide)

/-- C9: in the few-shot setting with a sampling strategy configured but
an empty seed list, the averaging step divides by zero after the empty
loop and main reports no metric. -/
theorem empty_seed_list_zero_division (env : Env) (cfg : Config) (args : Args)
    (hset : cfg.learning_setting = "few_shot")
    (hsamp : cfg.few_shot.few_shot_sampling.isNone = false)
    (hseeds : cfg.sampling_from_train.seed = [])
    (hnc : (pyTruthy args.resume && pyTruthy args.test) = false) :
    (mainModel env cfg args).2.2 = Outcome.error Err.zeroDivision := by
  cases hr : pyTruthy args.resume <;> cases ht : pyTruthy args.test
  · simp [mainModel, hr, ht, hset, hsamp, hseeds, fewShotLoop]
  · simp [mainModel, hr, ht, hset, hsamp, hseeds, fewShotLoop]
  · simp [mainModel, hr, ht, hset, hsamp, hseeds, fewShotLoop]
  · rw [hr, ht] at hnc; simp at hnc

/-- Witness for C9 on a fresh run with an empty seed list. -/
theorem empty_seed_list_zero_division_witness :
    (mainModel envW cfgEmptySeeds argsFresh).2.2 = Outcome.error Err.zeroDivision :=
  empty_seed_list_zero_division envW cfgEmptySeeds argsFresh rfl rfl rfl (by decide)

/-- Counterexample to C3 as stated: with an unsupported learning setting,
main does fail, but with an unbound-local error on res at the final print,
which corresponds to no explicit raise statement, rather than with a
dedicated configuration error. -/
theorem unsupported_setting_counterexample :
    (mainModel envW cfgUnsupported argsFresh).2.2
      = Outcome.error (Err.unboundLocal "res") ∧
    isExplicitRaise (Err.unboundLocal "res") = false :=
  ⟨rfl, rfl⟩

/-- C3 as amended: for a learning setting that is none of full, few_shot
or zero_shot (and without the flag conflict), main loads the dataset and
then fails with the unbound-local error on res at the final print; this
failure is not one of the explicit configuration raises. -/
theorem unsupported_setting_unbound_res (env : Env) (cfg : Config) (args : Args)
    (h1 : cfg.learning_setting ≠ "full")
    (h2 : cfg.learning_setting ≠ "few_shot")
    (h3 : cfg.learning_setting ≠ "zero_shot")
    (hnc : (pyTruthy args.resume && pyTruthy args.test) = false) :
    (mainModel env cfg args).2.2 = Outcome.error (Err.unboundLocal "res") ∧
    Event.loadDataset (args.test.isSome || (cfg.learning_setting == "zero_shot"))
      ∈ (mainModel env cfg args).2.1 ∧
    isExplicitRaise (Err.unboundLocal "res") = false := by
  cases hr : pyTruthy args.resume <;> cases ht : pyTruthy args.test
  · simp [mainModel, hr, ht, h1, h2, h3, isExplicitRaise]
  · simp [mainModel, hr, ht, h1, h2, h3, isExplicitRaise]
  · simp [mainModel, hr, ht, h1, h2, h3, isExplicitRaise]
  · rw [hr, ht] at hnc; simp at hnc

/-- Witness for the amended C3 at the setting supervised. -/
theorem unsupported_setting_unbound_res_witness :
    (mainModel envW cfgUnsupported argsFresh).2.2
      = Outcome.error (Err.unboundLocal "res") ∧
    Event.loadDataset ((argsFresh.test).isSome
        || (cfgUnsupported.learning_setting == "zero_shot"))
      ∈ (mainModel envW cfgUnsupported argsFresh).2.1 ∧
    isExplicitRaise (Err.unboundLocal "res") = false :=
  unsupported_setting_unbound_res envW cfgUnsupported argsFresh
    (by decide) (by decide) (by decide) (by decide)

/-- C7: the config.yaml snapshot is written exactly when the invocation is
a fresh run, that is, when neither the resume nor the test flag is truthy. -/
theorem config_snapshot_iff_fresh (env : Env) (cfg : Config) (args : Args) :
    Event.saveConfig ∈ (mainModel env cfg args).2.1 ↔
      (pyTruthy args.resume = false ∧ pyTruthy args.test = false) := by
  have hm : ∀ (c : Config) (p : String) (P : Proc) (t v td : Option Dataset)
      (r te : Option String) (z : Bool),
      Event.saveConfig ∉ (trainerModel env c p P t v td r te z).1 :=
    fun c p P t v td r te z => saveConfig_not_in_trainerModel env c p P t v td r te z
  have hl : ∀ (c : Config) (p : String) (P : Proc) (t v td : Option Dataset)
      (l : List Int) (a : ℚ),
      Event.saveConfig ∉ (fewShotLoop (seedStep env c args p P t v td) l a).1 :=
    fun c p P t v td l a => saveConfig_not_in_fewShotLoop _
      (fun s => saveConfig_not_in_seedStep env c args p P t v td s) l a
  cases hr : pyTruthy args.resume <;> cases ht : pyTruthy args.test <;>
    (simp only [mainModel, hr, ht, Bool.and_self, Bool.and_false, Bool.false_and,
       Bool.and_true, Bool.true_and, Bool.or_self, Bool.or_false, Bool.false_or,
       Bool.or_true, Bool.true_or, Bool.not_false, Bool.not_true,
       Bool.false_eq_true, Bool.true_eq_false, if_false, if_true, ite_false, ite_true]
     repeat' split
     all_goals simp [hm, hl])

/-- Counterexample to C8 as stated: a resume invocation modifies the
configuration object, so config is not immutable for every invocation
mode between config resolution and process exit. -/
theorem config_mutation_counterexample :
    (mainModel envW cfgW argsResume).1 ≠ cfgW := by
  have he : (mainModel envW cfgW argsResume).1 = setLoggingPath cfgW "ckpt" := rfl
  rw [he]
  intro h
  have hpath : "ckpt" = "orig" := congrArg (fun c => c.logging.path) h
  exact absurd hpath (by decide)

/-- C8 as amended: main leaves the configuration unchanged on a fresh run
and on a flag conflict, and on a resume or test invocation it changes
exactly the logging path, setting it to the supplied path; the trainer
never modifies the configuration. -/
theorem config_mutation_profile (env : Env) (cfg : Config) (args : Args) :
    (mainModel env cfg args).1 =
      if pyTruthy args.resume && pyTruthy args.test then cfg
      else if pyTruthy args.resume then setLoggingPath cfg (args.resume.getD "")
      else if pyTruthy args.test then setLoggingPath cfg (args.test.getD "")
      else cfg := by
  cases hr : pyTruthy args.resume <;> cases ht : pyTruthy args.test <;>
    (simp only [mainModel, hr, ht, Bool.and_self, Bool.and_false, Bool.false_and,
       Bool.and_true, Bool.true_and, Bool.or_self, Bool.or_false, Bool.false_or,
       Bool.or_true, Bool.true_or, Bool.not_false, Bool.not_true,
       Bool.false_eq_true, Bool.true_eq_false, eq_self_iff_true,
       if_false, if_true, ite_false, ite_true]
     repeat' split
     all_goals rfl)

/-- C1: on a fresh run in the few-shot setting with a sampling strategy
configured and a non-empty seed list, main invokes the trainer exactly
once per configured seed, and the reported metric is the arithmetic mean
of the per-seed metrics returned by those trainer invocations. -/
theorem few_shot_mean (env : Env) (cfg : Config) (args : Args) (m : Int → ℚ)
    (hset : cfg.learning_setting = "few_shot")
    (hsamp : cfg.few_shot.few_shot_sampling.isNone = false)
    (hr : args.resume = none) (ht : args.test = none)
    (hne : cfg.sampling_from_train.seed ≠ [])
    (hm : ∀ s ∈ cfg.sampling_from_train.seed,
      (seedStep env cfg args env.expDir (env.datasets false).2.2.2
        (env.datasets false).1 (env.datasets false).2.1
        (env.datasets false).2.2.1 s).2 = Outcome.ok (m s)) :
    trainerCalls (mainModel env cfg args).2.1 = cfg.sampling_from_train.seed.length ∧
    (mainModel env cfg args).2.2 =
      Outcome.ok ((cfg.sampling_from_train.seed.map m).sum
        / (cfg.sampling_from_train.seed.length : ℚ)) := by
  have hps : pyTruthy args.resume = false := by rw [hr]; rfl
  have hpt : pyTruthy args.test = false := by rw [ht]; rfl
  have hsum := fewShotLoop_ok_sum
    (seedStep env cfg args env.expDir (env.datasets false).2.2.2
      (env.datasets false).1 (env.datasets false).2.1 (env.datasets false).2.2.1)
    m cfg.sampling_from_train.seed 0 hm
  have hcalls := fewShotLoop_calls
    (seedStep env cfg args env.expDir (env.datasets false).2.2.2
      (env.datasets false).1 (env.datasets false).2.1 (env.datasets false).2.2.1)
    m (fun s => seedStep_trainerCalls env cfg args env.expDir _ _ _ _ s)
    cfg.sampling_from_train.seed 0 hm
  rcases hlr : fewShotLoop
      (seedStep env cfg args env.expDir (env.datasets false).2.2.2
        (env.datasets false).1 (env.datasets false).2.1 (env.datasets false).2.2.1)
      cfg.sampling_from_train.seed 0 with ⟨ltr, lout⟩
  rw [hlr] at hsum hcalls
  simp only at hsum hcalls
  have hlen : ¬ cfg.sampling_from_train.seed.length = 0 := by
    simpa [List.length_eq_zero] using hne
  constructor
  · simp [mainModel, pyTruthy, hr, ht, hset, hsamp, hlr, hsum, hlen,
      trainerCalls_append, trainerCalls, List.filter, isTrainerCall]
    exact hcalls
  · simp [mainModel, pyTruthy, hr, ht, hset, hsamp, hlr, hsum, hlen]

/-- Witness for C1: seeds 1, 2, 3 with per-seed metrics 7/10, 3/4 and
4/5; the trainer runs three times and the reported metric is 3/4. -/
theorem few_shot_mean_witness :
    trainerCalls (mainModel envW cfgW argsFresh).2.1 = 3 ∧
    (mainModel envW cfgW argsFresh).2.2 = Outcome.ok (3/4) := by
  have h := few_shot_mean envW cfgW argsFresh mW rfl rfl rfl rfl (by decide)
    (by intro s hs; fin_cases hs <;> rfl)
  refine ⟨h.1, ?_⟩
  rw [h.2]
  norm_num [mW, cfgW]

end OpenPromptCLI
